import Mathlib

/-!
Shallow embedding of the mirror-reconciliation engine of gitbacker.py
(indigoparadox/gitbacker).  Pure control flow is translated directly;
effectful collaborators (the git library, the filesystem, the message
queues) are made explicit as parameters describing the outcome of each
external call, and exceptions become `Except` values.
-/

/-- Embeds gitbacker.py:24, `PATTERN_REMOTE_REF = re.compile(r'.*find remote ref.*')`.
For this pattern, `PATTERN_REMOTE_REF.search(s)` succeeds exactly when `s`
contains the text `find remote ref`. -/
def PATTERN_REMOTE_REF : String := "find remote ref"

/-- Result of `PATTERN_REMOTE_REF.search(str(e))` at gitbacker.py:184:
true iff the exception text contains the dead-ref pattern. -/
def patternRemoteRefSearch (s : String) : Bool :=
  decide (PATTERN_REMOTE_REF.toList <:+: s.toList)

/-- Embeds the `GitBackupFailedException` class (gitbacker.py:29-37): it
carries the underlying message `msg`, the failed operation name `op`
(always the raising function's `__name__`), and the keyword-argument set
`func_args` of the failed call, as a list of (key, value) pairs in the
order the call site passes them. -/
structure GitBackupFailedException where
  msg : String
  op : String
  func_args : List (String × String)
deriving DecidableEq

/-- Outcome of one call of the function handed to `LocalRepo._try_repeat`
(gitbacker.py:175-197): it returns normally, raises a
`GitBackupFailedException` itself, or raises some other exception whose
`str()` is `msg`. -/
inductive CallOutcome
  | ok
  | exc (msg : String)
  | backupExc (e : GitBackupFailedException)
deriving DecidableEq

/-- Embeds the `while 0 < try_count` loop of `LocalRepo._try_repeat`
(gitbacker.py:176-197).  `outs i` is the outcome of the (i+1)-th call of
`func`; the first argument of the pair is the Python return / raise
behaviour and the second counts how many times the loop executed
`try_count -= 1` (line 193), i.e. how many retry attempts were consumed.
A `GitBackupFailedException` from `func` is re-raised unchanged
(line 181-182); an exception matching `PATTERN_REMOTE_REF` sets
`try_count = 0` and the loop ends without raising (lines 184-190); any
other exception decrements `try_count` and, when it reaches 0, raises
`GitBackupFailedException(str(e), func.__name__, **kwargs)` (lines 191-197). -/
def tryRepeatAux (fname : String) (kw : List (String × String))
    (outs : Nat → CallOutcome) :
    Nat → Nat → Except GitBackupFailedException Unit × Nat
  | 0, _ => (Except.ok (), 0)
  | tc + 1, i =>
    match outs i with
    | CallOutcome.ok => (Except.ok (), 0)
    | CallOutcome.backupExc e => (Except.error e, 0)
    | CallOutcome.exc m =>
      if patternRemoteRefSearch m then (Except.ok (), 0)
      else if tc = 0 then (Except.error ⟨m, fname, kw⟩, 1)
      else
        match tryRepeatAux fname kw outs tc (i + 1) with
        | (r, n) => (r, n + 1)

/-- Embeds `LocalRepo._try_repeat(try_count, func, **kwargs)` where `fname`
is `func.__name__`, `kw` the keyword arguments and `outs` the outcomes of
the successive calls of `func`. -/
def tryRepeat (fname : String) (kw : List (String × String))
    (outs : Nat → CallOutcome) (try_count : Nat) :
    Except GitBackupFailedException Unit × Nat :=
  tryRepeatAux fname kw outs try_count 0

/-- Keyword arguments of the `self._try_repeat(3, self.fetch_branch, ...)`
call at gitbacker.py:255-258, in call-site order. -/
def branchKwargs (owner_name repo_name remote branch : String) :
    List (String × String) :=
  [("owner_name", owner_name), ("repo_name", repo_name),
   ("remote", remote), ("branch", branch)]

/-- One branch of the per-branch fallback loop in
`LocalRepo.fetch_all_branches` (gitbacker.py:254-258): the branch name and
the outcomes of the successive `fetch_branch` calls for it. -/
structure BranchFetch where
  branch : String
  outs : Nat → CallOutcome

/-- Embeds the `for branch in branches` loop at gitbacker.py:254-258 for one
remote: each branch is fetched through `self._try_repeat(3,
self.fetch_branch, owner_name=..., repo_name=..., remote=..., branch=...)`;
a raised `GitBackupFailedException` propagates out of the loop, otherwise
the loop moves to the next branch. -/
def fetchBranchesLoop (owner_name repo_name remote : String) :
    List BranchFetch → Except GitBackupFailedException Unit
  | [] => Except.ok ()
  | bf :: rest =>
    match (tryRepeat "fetch_branch"
        (branchKwargs owner_name repo_name remote bf.branch) bf.outs 3).1 with
    | Except.ok _ => fetchBranchesLoop owner_name repo_name remote rest
    | Except.error e => Except.error e

/-- Outcome of one call of `LocalRepo.clone_create` (gitbacker.py:283-289)
from inside `_try_repeat`: either the clone succeeds, or it raises an
exception whose `str()` is `msg`, possibly leaving a partially written
clone directory behind (`leavesPartial`). -/
inductive CloneOutcome
  | ok
  | fail (msg : String) (leavesPartial : Bool)
deriving DecidableEq

/-- Keyword arguments of the `self._try_repeat(3, self.clone_create, ...)`
call at gitbacker.py:296-298, in call-site order. -/
def cloneKwargs (repo_name owner_name remote_url : String) :
    List (String × String) :=
  [("repo_name", repo_name), ("owner_name", owner_name),
   ("remote_url", remote_url)]

/-- Embeds `_try_repeat` (gitbacker.py:175-197) applied to `clone_create`
with the existence of the clone directory threaded through explicitly.
The state is the `while` loop of `_try_repeat`; `dir` is whether
`repo_dir` exists when an attempt starts.  The returned triple is (raise /
return behaviour, whether `repo_dir` exists afterwards, the list of
`repo_dir`-exists states observed at the entry of each attempt that was
made).  Nothing in `_try_repeat` or `clone_create` removes the directory
between attempts; a failed attempt leaves the directory in place whenever
the underlying `Repo.clone_from` left a partial clone. -/
def cloneTryRepeat (kw : List (String × String)) (outs : Nat → CloneOutcome) :
    Nat → Nat → Bool →
    Except GitBackupFailedException Unit × Bool × List Bool
  | 0, _, dir => (Except.ok (), dir, [])
  | tc + 1, i, dir =>
    match outs i with
    | CloneOutcome.ok => (Except.ok (), true, [dir])
    | CloneOutcome.fail m leaves =>
      let dir2 := dir || leaves
      if patternRemoteRefSearch m then (Except.ok (), dir2, [dir])
      else if tc = 0 then
        (Except.error ⟨m, "clone_create", kw⟩, dir2, [dir])
      else
        match cloneTryRepeat kw outs tc (i + 1) dir2 with
        | (r, d, tr) => (r, d, dir :: tr)

/-- Embeds the clone phase of `LocalRepo.create_or_update`
(gitbacker.py:293-303) when the local path is absent: `self._try_repeat(3,
self.clone_create, ...)` runs with the directory initially absent; if it
raises, the `except` handler removes `repo_dir` when it exists
(lines 299-302) and re-raises the same exception.  Result triple as in
`cloneTryRepeat`. -/
def create_or_update_clone (kw : List (String × String))
    (outs : Nat → CloneOutcome) :
    Except GitBackupFailedException Unit × Bool × List Bool :=
  match cloneTryRepeat kw outs 3 0 false with
  | (Except.ok _, d, tr) => (Except.ok (), d, tr)
  | (Except.error e, _, tr) => (Except.error e, false, tr)

/-- Embeds the per-item allocation of `backup_repos` (gitbacker.py:381-393):
`count_processed` (here `cp`) is incremented once per item observed, before
filtering; the item is skipped when `step != (count_processed % div)` and
processed otherwise.  Returns the items this worker processes, in order. -/
def backupLoop {α : Type} (div step : Nat) : List α → Nat → List α
  | [], _ => []
  | x :: rest, cp =>
    if step ≠ (cp + 1) % div then backupLoop div step rest (cp + 1)
    else x :: backupLoop div step rest (cp + 1)

/-- Items processed by the worker with the given `div` and `step`, starting
from `count_processed = 0` as in `backup_repos` (gitbacker.py:382). -/
def workerItems {α : Type} (div step : Nat) (items : List α) : List α :=
  backupLoop div step items 0

/-- Python runtime errors that the engine can raise besides
`GitBackupFailedException`: an unbound name (`NameError`), a call-arity
mismatch (`TypeError`), or any other escaping exception. -/
inductive PyErr
  | nameError (name : String)
  | typeError (fname : String)
  | otherExc (msg : String)
deriving DecidableEq

/-- Python truthiness of an optional string (`self.topic_filter`,
gitbacker.py:55): `None` and the empty string are falsy. -/
def truthyStr : Option String → Bool
  | none => false
  | some s => ! s.isEmpty

/-- Python truthiness of an optional integer (`self.max_size`,
gitbacker.py:63): `None` and 0 are falsy. -/
def truthyNat : Option Nat → Bool
  | none => false
  | some n => ! (n == 0)

/-- Filesystem / metadata mutations that `GitHubRepo.backup`
(gitbacker.py:50-77) can perform, in order: creating the owner directory
(line 74), delegating to `local.create_or_update` (line 76) and writing one
metadata row via `local.update_metadata` (line 77). -/
inductive Effect
  | mkdir (owner : String)
  | createOrUpdate (name url owner : String)
  | updateMetadata (owner name id : String)
deriving DecidableEq

/-- Embeds a `GitHubRepo` object (gitbacker.py:39-48): the fields of the
response record the engine reads, plus the two filter parameters.
`topics` is `none` when the response has no topics key. -/
structure GitHubRepo where
  name : String
  owner : String
  id : String
  git_url : String
  size : Nat
  topics : Option (List String)
  description : String
  topic_filter : Option String
  max_size : Option Nat
deriving DecidableEq

/-- Embeds `GitHubRepo.backup` (gitbacker.py:50-77).  Returns the Python
return value (`some false` for `return False`, `none` for falling off the
end, which returns `None`) or the raised error, together with the list of
mutations performed.

Two bare names in the source are unbound: line 56 reads `'topics' not in
repo`, and no binding named `repo` exists in the function's scope or at
module level (the module only ever binds `repo` as a local of other
functions), so whenever `self.topic_filter` is truthy the condition's
right operand raises `NameError: name 'repo' is not defined` — before any
topic comparison can happen.  Likewise line 66 formats the skip warning
with bare `max_size` instead of `self.max_size`, so whenever the size
check at line 63 is true the logging call raises `NameError: name
'max_size' is not defined` before `return False` is reached.  The division
at line 63 is Python 3 true division, so `self.max_size <= self.size /
1024` holds exactly when `1024 * max_size <= size` over the integers. -/
def GitHubRepo.backup (self : GitHubRepo) (ownerPathExists : Bool) :
    Except PyErr (Option Bool) × List Effect :=
  if truthyStr self.topic_filter then
    (Except.error (PyErr.nameError "repo"), [])
  else if truthyNat self.max_size &&
      decide (1024 * self.max_size.getD 0 ≤ self.size) then
    (Except.error (PyErr.nameError "max_size"), [])
  else
    (Except.ok none,
      (if ownerPathExists then [] else [Effect.mkdir self.owner]) ++
        [Effect.createOrUpdate self.name self.git_url self.owner,
         Effect.updateMetadata self.owner self.name self.id])

/-- One entry of the mirror root directory for `LocalRepo.each_repo`
(gitbacker.py:213-228): its name, whether it is a directory, and — when it
is an owner directory — its own entries as (name, is-a-directory) pairs. -/
structure DirEntry where
  name : String
  isDir : Bool
  entries : List (String × Bool)
deriving DecidableEq

/-- Python `str.endswith(t)` as it appears at gitbacker.py:206, 210 and 225:
a suffix test on the character sequence. -/
def pyEndsWith (s t : String) : Bool :=
  decide (t.toList <:+ s.toList)

/-- Embeds `LocalRepo.each_repo` (gitbacker.py:213-228).  The outer loop
skips entries of the root that are not directories (lines 216-218).  The
inner loop's directory test at line 222 checks `user_dir` again — not
`repo_dir` — so it can never fail once the outer test passed, and whether
the inner entry is a directory (the second component of the pair) is never
consulted; only the `.git` suffix of the joined path is checked
(line 225).  The walk reads the listing and mutates nothing. -/
def each_repo (root : String) : List DirEntry → List (String × String × String)
  | [] => []
  | user :: rest =>
    (if ! user.isDir then []
     else
       user.entries.filterMap fun ent =>
         let repo_dir := root ++ "/" ++ user.name ++ "/" ++ ent.1
         if ! user.isDir then none
         else if ! pyEndsWith repo_dir ".git" then none
         else some (repo_dir, user.name, ent.1)) ++ each_repo root rest

/-- Parameters of `def backup_repos(div, step, local, username, notifier,
msg_queue, fetcher)` at gitbacker.py:381, in order. -/
def backup_repos_params : List String :=
  ["div", "step", "local", "username", "notifier", "msg_queue", "fetcher"]

/-- Positional argument expressions of the `backup_repos(...)` call in the
`user_gists` arm of `do_backup` (gitbacker.py:453-456), in order. -/
def user_gists_call_args : List String :=
  ["div", "step", "git", "local", "username", "notifier", "msg_queue",
   "git.get_user_gists"]

/-- Positional argument expressions of the `backup_repos(...)` call in the
`starred_gists` arm of `do_backup` (gitbacker.py:458-461), in order. -/
def starred_gists_call_args : List String :=
  ["div", "step", "git", "local", "username", "notifier", "msg_queue",
   "git.get_own_starred_gists"]

/-- Python positional binding for a function with no defaults and no
varargs: when the argument count differs from the parameter count, the
call raises `TypeError` before the callee body runs — so for
`backup_repos` nothing is fetched and no item is backed up. -/
def bindPositional (fname : String) (params args : List String) :
    Except PyErr (List (String × String)) :=
  if params.length = args.length then Except.ok (params.zip args)
  else Except.error (PyErr.typeError fname)

/-- Behaviour of one `repo.backup(local)` call inside the worker loop of
`backup_repos` (gitbacker.py:396-402): it returns a value (Python `True`,
`False` or `None`; the loop ignores which), raises a
`GitBackupFailedException`, or raises some other exception that escapes
the worker. -/
inductive ItemOutcome
  | ret (v : Option Bool)
  | failBF (e : GitBackupFailedException)
  | failOther (err : PyErr)
deriving DecidableEq

/-- True exactly for outcomes where `backup()` returned (did not raise). -/
def isRetOutcome : ItemOutcome → Bool
  | ItemOutcome.ret _ => true
  | _ => false

/-- True exactly for outcomes where `backup()` returned Python `True`. -/
def isTrueRetOutcome : ItemOutcome → Bool
  | ItemOutcome.ret (some true) => true
  | _ => false

/-- True exactly for outcomes raising something other than
`GitBackupFailedException`. -/
def isFailOtherOutcome : ItemOutcome → Bool
  | ItemOutcome.failOther _ => true
  | _ => false

/-- Text queued by `notifier.queue_exc` at gitbacker.py:400-402 for a caught
`GitBackupFailedException` (the `str()` rendering of the argument dict is
abstracted to key=value pairs). -/
def formatExcText (e : GitBackupFailedException) : String :=
  "msg: " ++ e.msg ++ ", op: " ++ e.op ++ ", args: " ++
    String.intercalate ", " (e.func_args.map (fun p => p.1 ++ "=" ++ p.2))

/-- Queued error text of an outcome, when it raises a
`GitBackupFailedException`. -/
def bfText : ItemOutcome → Option String
  | ItemOutcome.failBF e => some (formatExcText e)
  | _ => none

/-- Embeds the worker loop of `backup_repos` (gitbacker.py:381-408).
`quitQ cp` tells whether `msg_queue` is non-empty at the check following
the item with running count `cp` (lines 404-407); `cp` is
`count_processed`, `count` is `count_success` and `errs` the notifier's
queued error list.  Skipped items (`step != count_processed % div`)
bypass both the `backup` call and the quit check; a processed item
increments `count_success` whenever `backup` returns — the return value is
not consulted — while a `GitBackupFailedException` queues one error text
and any other exception propagates out of the worker. -/
def backupReposLoop (div step : Nat) (quitQ : Nat → Bool) :
    List (String × ItemOutcome) → Nat → Nat → List String →
    Except PyErr (Nat × List String)
  | [], _, count, errs => Except.ok (count, errs)
  | (_, out) :: rest, cp, count, errs =>
    if step ≠ (cp + 1) % div then
      backupReposLoop div step quitQ rest (cp + 1) count errs
    else
      match out with
      | ItemOutcome.ret _ =>
        if quitQ (cp + 1) then Except.ok (count + 1, errs)
        else backupReposLoop div step quitQ rest (cp + 1) (count + 1) errs
      | ItemOutcome.failBF e =>
        if quitQ (cp + 1) then Except.ok (count, errs ++ [formatExcText e])
        else backupReposLoop div step quitQ rest (cp + 1) count
          (errs ++ [formatExcText e])
      | ItemOutcome.failOther err => Except.error err

/-- C1: in `_try_repeat`, an attempt that raises an exception whose message
contains "find remote ref" ends the loop without raising and with zero
retry decrements, and in the per-branch loop of `fetch_all_branches` the
remaining branches are still processed: reconciliation continues past the
dead branch. -/
theorem try_repeat_dead_ref (tc : Nat) (htc : 0 < tc) (fname : String)
    (kw : List (String × String)) (outs : Nat → CallOutcome) (msg : String)
    (h0 : outs 0 = CallOutcome.exc msg)
    (hm : patternRemoteRefSearch msg = true)
    (owner_name repo_name remote bname : String) (rest : List BranchFetch) :
    tryRepeat fname kw outs tc = (Except.ok (), 0) ∧
    fetchBranchesLoop owner_name repo_name remote (⟨bname, outs⟩ :: rest) =
      fetchBranchesLoop owner_name repo_name remote rest := by
  cases tc with
  | zero => omega
  | succ n =>
    constructor
    · simp [tryRepeat, tryRepeatAux, h0, hm]
    · simp [fetchBranchesLoop, tryRepeat, tryRepeatAux, h0, hm]

/-- Witness for C1 at a concrete input: 3 tries, a first call failing with a
dead-ref message, one further branch in the queue. -/
theorem try_repeat_dead_ref_witness :
    (0 < 3 ∧
      (fun _ : Nat => CallOutcome.exc "fatal: could not find remote ref gone") 0 =
        CallOutcome.exc "fatal: could not find remote ref gone" ∧
      patternRemoteRefSearch "fatal: could not find remote ref gone" = true) ∧
    tryRepeat "fetch_branch" (branchKwargs "alice" "repo1" "origin" "gone")
        (fun _ => CallOutcome.exc "fatal: could not find remote ref gone") 3 =
      (Except.ok (), 0) ∧
    fetchBranchesLoop "alice" "repo1" "origin"
        (⟨"gone", fun _ => CallOutcome.exc "fatal: could not find remote ref gone"⟩ ::
          [⟨"main", fun _ => CallOutcome.ok⟩]) =
      fetchBranchesLoop "alice" "repo1" "origin" [⟨"main", fun _ => CallOutcome.ok⟩] :=
  ⟨⟨by decide, rfl, by decide⟩,
    try_repeat_dead_ref 3 (by decide) "fetch_branch"
      (branchKwargs "alice" "repo1" "origin" "gone")
      (fun _ => CallOutcome.exc "fatal: could not find remote ref gone")
      "fatal: could not find remote ref gone" rfl (by decide)
      "alice" "repo1" "origin" "gone" [⟨"main", fun _ => CallOutcome.ok⟩]⟩

/-- C2 counterexample: a branch fetch failing 3 consecutive times with a
non-dead-ref error does raise exactly one failure, but its `op` field is
`"fetch_branch"` (the `__name__` of `LocalRepo.fetch_branch`, the `func`
handed to `_try_repeat` at gitbacker.py:255-258), not `"fetch"` as the
claim states. -/
theorem fetch_branch_op_counterexample :
    (tryRepeat "fetch_branch" (branchKwargs "alice" "repo1" "origin" "dev")
        (fun _ => CallOutcome.exc "network down") 3).1 =
      Except.error
        ⟨"network down", "fetch_branch",
          branchKwargs "alice" "repo1" "origin" "dev"⟩ ∧
    ("fetch_branch" : String) ≠ "fetch" :=
  ⟨rfl, by decide⟩

/-- C2 (amended): a branch whose fetch fails 3 consecutive times with
non-dead-ref errors makes the per-branch loop raise exactly one
`GitBackupFailedException`; its `op` field is `"fetch_branch"`, its message
is the last underlying error text, its argument set contains the failed
branch's name, and all 3 retry attempts are consumed. -/
theorem fetch_branch_retry_exhaustion (owner_name repo_name remote bname : String)
    (outs : Nat → CallOutcome) (m0 m1 m2 : String)
    (h0 : outs 0 = CallOutcome.exc m0) (h1 : outs 1 = CallOutcome.exc m1)
    (h2 : outs 2 = CallOutcome.exc m2)
    (p0 : patternRemoteRefSearch m0 = false)
    (p1 : patternRemoteRefSearch m1 = false)
    (p2 : patternRemoteRefSearch m2 = false)
    (rest : List BranchFetch) :
    fetchBranchesLoop owner_name repo_name remote (⟨bname, outs⟩ :: rest) =
      Except.error
        ⟨m2, "fetch_branch", branchKwargs owner_name repo_name remote bname⟩ ∧
    (tryRepeat "fetch_branch" (branchKwargs owner_name repo_name remote bname)
        outs 3).2 = 3 ∧
    ("branch", bname) ∈ branchKwargs owner_name repo_name remote bname := by
  refine ⟨?_, ?_, by simp [branchKwargs]⟩
  · simp [fetchBranchesLoop, tryRepeat, tryRepeatAux, h0, h1, h2, p0, p1, p2]
  · simp [tryRepeat, tryRepeatAux, h0, h1, h2, p0, p1, p2]

/-- Witness for the amended C2 at a concrete input: three consecutive
network errors on branch dev. -/
theorem fetch_branch_retry_exhaustion_witness :
    ((fun _ : Nat => CallOutcome.exc "network down") 0 =
        CallOutcome.exc "network down" ∧
      patternRemoteRefSearch "network down" = false) ∧
    fetchBranchesLoop "alice" "repo1" "origin"
        (⟨"dev", fun _ => CallOutcome.exc "network down"⟩ :: []) =
      Except.error
        ⟨"network down", "fetch_branch",
          branchKwargs "alice" "repo1" "origin" "dev"⟩ ∧
    (tryRepeat "fetch_branch" (branchKwargs "alice" "repo1" "origin" "dev")
        (fun _ => CallOutcome.exc "network down") 3).2 = 3 ∧
    ("branch", "dev") ∈ branchKwargs "alice" "repo1" "origin" "dev" :=
  ⟨⟨rfl, by decide⟩,
    fetch_branch_retry_exhaustion "alice" "repo1" "origin" "dev"
      (fun _ => CallOutcome.exc "network down")
      "network down" "network down" "network down" rfl rfl rfl
      (by decide) (by decide) (by decide) []⟩

/-- Helper: `_try_repeat` with `try_count = tc` makes at most `tc` attempts,
so the entry-state trace has length at most `tc`. -/
theorem cloneTryRepeat_trace_length_le (kw : List (String × String))
    (outs : Nat → CloneOutcome) :
    ∀ tc i dir, ((cloneTryRepeat kw outs tc i dir).2.2).length ≤ tc := by
  intro tc
  induction tc with
  | zero => intro i dir; simp [cloneTryRepeat]
  | succ n ih =>
    intro i dir
    simp only [cloneTryRepeat]
    cases outs i with
    | ok => simp
    | fail m leaves =>
      by_cases hm : patternRemoteRefSearch m
      · simp [hm]
      · by_cases hn : n = 0
        · simp [hm, hn]
        · have := ih (i + 1) (dir || leaves)
          simp only [hm, hn, if_false, Bool.false_eq_true]
          cases h : cloneTryRepeat kw outs n (i + 1) (dir || leaves) with
          | mk r p =>
            cases p with
            | mk d tr =>
              simp only [h] at this
              simp only [if_neg hm, if_neg hn, h, List.length_cons]
              omega

/-- C3 counterexample: with the path absent and every clone attempt failing
with a partial directory left behind, the second and third attempts start
with the partial directory of the previous attempt still present (entry
trace [false, true, true], not all-false after the first), and the raised
failure's `op` is `"clone_create"`, not `"clone"`.  This falsifies the
claim that "after every failed attempt the partial clone directory is
removed before the next attempt" with op `"clone"`. -/
theorem clone_cleanup_counterexample :
    create_or_update_clone (cloneKwargs "repo1" "alice" "https://e/x")
        (fun _ => CloneOutcome.fail "clone failed" true) =
      (Except.error
          ⟨"clone failed", "clone_create", cloneKwargs "repo1" "alice" "https://e/x"⟩,
        false, [false, true, true]) ∧
    ([false, true, true] : List Bool) ≠ [false, false, false] ∧
    ("clone_create" : String) ≠ "clone" :=
  ⟨rfl, by decide, by decide⟩

/-- C3 (amended): with the local path absent, the clone is attempted at most
3 times; the partial clone directory is not removed between attempts (each
retry starts with whatever the previous attempt left behind); after 3
consecutive non-dead-ref failures exactly one `GitBackupFailedException`
with `op = "clone_create"` carrying the last underlying error text is
raised, and only then — in the `except` handler — is the partial directory
removed, so no directory remains afterwards. -/
theorem clone_retry_behavior (kw : List (String × String))
    (outs : Nat → CloneOutcome) (m0 m1 m2 : String) (l0 l1 l2 : Bool)
    (h0 : outs 0 = CloneOutcome.fail m0 l0)
    (h1 : outs 1 = CloneOutcome.fail m1 l1)
    (h2 : outs 2 = CloneOutcome.fail m2 l2)
    (p0 : patternRemoteRefSearch m0 = false)
    (p1 : patternRemoteRefSearch m1 = false)
    (p2 : patternRemoteRefSearch m2 = false) :
    create_or_update_clone kw outs =
      (Except.error ⟨m2, "clone_create", kw⟩, false, [false, l0, l0 || l1]) ∧
    (∀ outs2 : Nat → CloneOutcome,
      ((cloneTryRepeat kw outs2 3 0 false).2.2).length ≤ 3) := by
  constructor
  · simp [create_or_update_clone, cloneTryRepeat, h0, h1, h2, p0, p1, p2]
  · intro outs2
    exact cloneTryRepeat_trace_length_le kw outs2 3 0 false

/-- Witness for the amended C3 at a concrete input: three failed clone
attempts, the first two leaving a partial directory. -/
theorem clone_retry_behavior_witness :
    ((fun _ : Nat => CloneOutcome.fail "early EOF" true) 0 =
        CloneOutcome.fail "early EOF" true ∧
      patternRemoteRefSearch "early EOF" = false) ∧
    create_or_update_clone (cloneKwargs "repo2" "bob" "https://e/y")
        (fun _ => CloneOutcome.fail "early EOF" true) =
      (Except.error
          ⟨"early EOF", "clone_create", cloneKwargs "repo2" "bob" "https://e/y"⟩,
        false, [false, true, true || true]) ∧
    (∀ outs2 : Nat → CloneOutcome,
      ((cloneTryRepeat (cloneKwargs "repo2" "bob" "https://e/y") outs2 3 0
          false).2.2).length ≤ 3) :=
  ⟨⟨rfl, by decide⟩,
    clone_retry_behavior (cloneKwargs "repo2" "bob" "https://e/y")
      (fun _ => CloneOutcome.fail "early EOF" true)
      "early EOF" "early EOF" "early EOF" true true true rfl rfl rfl
      (by decide) (by decide) (by decide)⟩

/-- Helper: the worker loop keeps exactly the items whose running count
`i + 1` (position `i` counted from `cp`) satisfies `step = (i + 1) % div`. -/
theorem backupLoop_eq_filter {α : Type} (div step : Nat) (items : List α) :
    ∀ cp, backupLoop div step items cp =
      ((List.enumFrom cp items).filter
          (fun p => step == (p.1 + 1) % div)).map Prod.snd := by
  induction items with
  | nil => intro cp; simp [backupLoop, List.enumFrom]
  | cons x rest ih =>
    intro cp
    by_cases h : step = (cp + 1) % div
    · have hb : backupLoop div step (x :: rest) cp =
          x :: backupLoop div step rest (cp + 1) := by
        simp [backupLoop, h]
      rw [hb, ih (cp + 1)]
      simp [List.enumFrom, List.filter_cons, h]
    · have hb : backupLoop div step (x :: rest) cp =
          backupLoop div step rest (cp + 1) := by
        simp [backupLoop, h]
      rw [hb, ih (cp + 1)]
      simp [List.enumFrom, List.filter_cons, h]

/-- Helper: membership in the worker loop run over an enumerated item list
whose enumeration start agrees with the starting count. -/
theorem mem_backupLoop_enumFrom {α : Type} (div s : Nat) (items : List α) :
    ∀ k p, p ∈ backupLoop div s (List.enumFrom k items) k ↔
      p ∈ List.enumFrom k items ∧ s = (p.1 + 1) % div := by
  induction items with
  | nil => intro k p; simp [List.enumFrom, backupLoop]
  | cons x rest ih =>
    intro k p
    by_cases h : s = (k + 1) % div
    · simp only [List.enumFrom, backupLoop]
      rw [if_neg (by simp [h])]
      simp only [List.mem_cons, ih (k + 1) p]
      constructor
      · rintro (rfl | ⟨hp, hc⟩)
        · exact ⟨Or.inl rfl, h⟩
        · exact ⟨Or.inr hp, hc⟩
      · rintro ⟨rfl | hp, hc⟩
        · exact Or.inl rfl
        · exact Or.inr ⟨hp, hc⟩
    · simp only [List.enumFrom, backupLoop]
      rw [if_pos (by simp [h])]
      simp only [ih (k + 1) p, List.mem_cons]
      constructor
      · rintro ⟨hp, hc⟩; exact ⟨Or.inr hp, hc⟩
      · rintro ⟨rfl | hp, hc⟩
        · exact absurd hc h
        · exact ⟨hp, hc⟩

/-- Helper: a pair of the enumerated input is processed by the worker with
step `s` exactly when it is in the input and `s` is the residue of its
running count, `(index + 1) % div`. -/
theorem mem_workerItems_enum {α : Type} (div s : Nat) (items : List α)
    (p : Nat × α) :
    p ∈ workerItems div s items.enum ↔
      p ∈ items.enum ∧ s = (p.1 + 1) % div := by
  have he : items.enum = List.enumFrom 0 items := rfl
  rw [workerItems, he]
  exact mem_backupLoop_enumFrom div s items 0 p

/-- Helper: no worker processes the same occurrence twice. -/
theorem workerItems_enum_nodup {α : Type} (div s : Nat) (items : List α) :
    (workerItems div s items.enum).Nodup := by
  have h1 : workerItems div s items.enum =
      ((List.enumFrom 0 items.enum).filter
          (fun q => s == (q.1 + 1) % div)).map Prod.snd :=
    backupLoop_eq_filter div s items.enum 0
  have h2 : List.Sublist
      (((List.enumFrom 0 items.enum).filter
          (fun q => s == (q.1 + 1) % div)).map Prod.snd)
      ((List.enumFrom 0 items.enum).map Prod.snd) :=
    (List.filter_sublist _).map Prod.snd
  rw [List.enumFrom_map_snd] at h2
  have h3 : items.enum.Nodup :=
    List.Nodup.of_map Prod.fst
      (by rw [List.enum_map_fst]; exact List.nodup_range _)
  rw [h1]
  exact h3.sublist h2

/-- C4: for every divisor at least 1 and every finite input sequence (items
identified by their position, via `List.enum`), the worker loop assigns
every item occurrence to exactly one worker: the item lists of the workers
with steps below the divisor are pairwise disjoint, their union is exactly
the input sequence, and no worker processes an occurrence twice. -/
theorem backup_repos_partition {α : Type} (div : Nat) (hdiv : 1 ≤ div)
    (items : List α) :
    (∀ s t, s < div → t < div → s ≠ t → ∀ p : Nat × α,
        p ∈ workerItems div s items.enum → p ∉ workerItems div t items.enum) ∧
    (∀ p : Nat × α,
        p ∈ items.enum ↔ ∃ s, s < div ∧ p ∈ workerItems div s items.enum) ∧
    (∀ s, (workerItems div s items.enum).Nodup) := by
  refine ⟨?_, ?_, fun s => workerItems_enum_nodup div s items⟩
  · intro s t _ _ hst p hs ht
    rw [mem_workerItems_enum] at hs ht
    exact hst (hs.2.trans ht.2.symm)
  · intro p
    constructor
    · intro hp
      refine ⟨(p.1 + 1) % div, Nat.mod_lt _ (by omega), ?_⟩
      rw [mem_workerItems_enum]
      exact ⟨hp, rfl⟩
    · rintro ⟨s, _, hs⟩
      exact ((mem_workerItems_enum div s items p).mp hs).1

/-- Witness for C4 at a concrete input: divisor 2 over a 5-item sequence. -/
theorem backup_repos_partition_witness :
    1 ≤ 2 ∧
    ((∀ s t, s < 2 → t < 2 → s ≠ t → ∀ p : Nat × String,
        p ∈ workerItems 2 s (["a", "b", "c", "d", "e"] : List String).enum →
          p ∉ workerItems 2 t (["a", "b", "c", "d", "e"] : List String).enum) ∧
      (∀ p : Nat × String,
        p ∈ (["a", "b", "c", "d", "e"] : List String).enum ↔
          ∃ s, s < 2 ∧
            p ∈ workerItems 2 s (["a", "b", "c", "d", "e"] : List String).enum) ∧
      (∀ s, (workerItems 2 s (["a", "b", "c", "d", "e"] : List String).enum).Nodup)) :=
  ⟨by decide, backup_repos_partition 2 (by decide) ["a", "b", "c", "d", "e"]⟩

/-- C5 counterexample: for divisor 2 over the input indices 0..4, the worker
with step 0 does not process indices 0, 2, 4 and the worker with step 1
does not process 1, 3 — `count_processed` is incremented before the residue
check, so the item at index i goes to the worker with step (i+1) mod 2. -/
theorem worker_assignment_counterexample :
    workerItems 2 0 ([0, 1, 2, 3, 4] : List Nat) ≠ [0, 2, 4] ∧
    workerItems 2 1 ([0, 1, 2, 3, 4] : List Nat) ≠ [1, 3] := by
  decide

/-- C5 (amended): for a 5-item input with indices 0..4 and divisor 2, the
worker with step 0 processes exactly the items at indices 1 and 3, and the
worker with step 1 processes exactly the items at indices 0, 2 and 4: the
item at 0-based index i is assigned to the worker whose step equals
(i + 1) mod divisor. -/
theorem worker_assignment_scenario :
    workerItems 2 0 ([0, 1, 2, 3, 4] : List Nat) = [1, 3] ∧
    workerItems 2 1 ([0, 1, 2, 3, 4] : List Nat) = [0, 2, 4] := by
  decide

/-- C6: evaluating `backup` on an item with a configured topic filter that
its topic set does not contain.  The claim says it returns false with no
mutation and no exception; the code instead raises `NameError` for the
unbound name `repo` at gitbacker.py:56 (no mutation does happen, but no
value is returned either). -/
theorem backup_topic_filter_name_error :
    GitHubRepo.backup
        ⟨"repo1", "alice", "1", "git://e/alice/repo1.git", 500, some ["y"],
          "demo", some "x", none⟩ false =
      (Except.error (PyErr.nameError "repo"), []) := rfl

/-- C7: evaluating `backup` on an item whose size meets the configured
max-size limit (size 2048 KB, limit 1 MB).  The claim says it logs a
warning and returns false with no mutation and no exception; the code
instead raises `NameError` for the unbound name `max_size` while building
the warning text at gitbacker.py:66, before `return False` is reached. -/
theorem backup_max_size_name_error :
    GitHubRepo.backup
        ⟨"big", "alice", "2", "https://e/alice/big.git", 2048, some ["x"],
          "big repo", none, some 1⟩ false =
      (Except.error (PyErr.nameError "max_size"), []) := rfl

/-- C9: evaluating `each_repo` on a root whose owner directory `alice`
contains a plain file `notes.git` (not a directory), a repository
directory `real.git`, and a non-`.git` directory `readme`, plus a stray
non-directory root entry.  The claim says only `.git` directories are
yielded; the code yields the non-directory `notes.git` as well, because
the inner directory check re-tests the owner directory instead of the
entry. -/
theorem each_repo_yields_non_directory :
    each_repo "root"
        [⟨"alice", true,
            [("notes.git", false), ("real.git", true), ("readme", true)]⟩,
          ⟨"stray.txt", false, []⟩] =
      [("root/alice/notes.git", "alice", "notes.git"),
        ("root/alice/real.git", "alice", "real.git")] := by
  decide

/-- C10: both gist arms of `do_backup` pass one more positional argument
(the stray leading `git`) than `backup_repos`'s 7-parameter signature
accepts, so the call raises `TypeError` at binding time, before any gist
item is fetched or backed up — the gist backup paths are unreachable as
wired. -/
theorem gist_call_arity_type_error :
    user_gists_call_args.length = backup_repos_params.length + 1 ∧
    starred_gists_call_args.length = backup_repos_params.length + 1 ∧
    bindPositional "backup_repos" backup_repos_params user_gists_call_args =
      Except.error (PyErr.typeError "backup_repos") ∧
    bindPositional "backup_repos" backup_repos_params starred_gists_call_args =
      Except.error (PyErr.typeError "backup_repos") :=
  ⟨rfl, rfl, rfl, rfl⟩

/-- Helper: with an empty message queue and no escaping exception, the
worker loop returns its accumulated count plus one per assigned item whose
`backup` returned, and its accumulated errors plus one text per assigned
item that raised a `GitBackupFailedException`. -/
theorem backupReposLoop_no_quit (div step : Nat) :
    ∀ (items : List (String × ItemOutcome)) (cp count : Nat)
      (errs : List String),
      items.all (fun p => ! isFailOtherOutcome p.2) = true →
      backupReposLoop div step (fun _ => false) items cp count errs =
        Except.ok
          (count + (List.enumFrom cp items).countP
              (fun q => (step == (q.1 + 1) % div) && isRetOutcome q.2.2),
            errs ++ (List.enumFrom cp items).filterMap
              (fun q =>
                if step == (q.1 + 1) % div then bfText q.2.2 else none)) := by
  intro items
  induction items with
  | nil => intro cp count errs _; simp [backupReposLoop, List.enumFrom]
  | cons q rest ih =>
    intro cp count errs hall
    obtain ⟨nm, out⟩ := q
    rw [List.all_cons] at hall
    have h1 : (! isFailOtherOutcome out) = true := (Bool.and_eq_true _ _ ▸ hall).1
    have h2 := (Bool.and_eq_true _ _ ▸ hall).2
    by_cases hs : step = (cp + 1) % div
    · cases out with
      | ret v =>
        have hb : backupReposLoop div step (fun _ => false)
            ((nm, ItemOutcome.ret v) :: rest) cp count errs =
            backupReposLoop div step (fun _ => false) rest (cp + 1)
              (count + 1) errs := by
          simp [backupReposLoop, hs]
        rw [hb, ih (cp + 1) (count + 1) errs h2]
        simp only [List.enumFrom, List.countP_cons, List.filterMap_cons]
        have hbeq : (step == (cp + 1) % div) = true := by simp [hs]
        simp [hbeq, isRetOutcome, bfText]
        omega
      | failBF e =>
        have hb : backupReposLoop div step (fun _ => false)
            ((nm, ItemOutcome.failBF e) :: rest) cp count errs =
            backupReposLoop div step (fun _ => false) rest (cp + 1) count
              (errs ++ [formatExcText e]) := by
          simp [backupReposLoop, hs]
        rw [hb, ih (cp + 1) count (errs ++ [formatExcText e]) h2]
        simp only [List.enumFrom, List.countP_cons, List.filterMap_cons]
        have hbeq : (step == (cp + 1) % div) = true := by simp [hs]
        simp [hbeq, isRetOutcome, bfText]
      | failOther err => simp [isFailOtherOutcome] at h1
    · have hb : backupReposLoop div step (fun _ => false)
          ((nm, out) :: rest) cp count errs =
          backupReposLoop div step (fun _ => false) rest (cp + 1) count errs := by
        simp [backupReposLoop, hs]
      rw [hb, ih (cp + 1) count errs h2]
      simp only [List.enumFrom, List.countP_cons, List.filterMap_cons]
      have hbeq : (step == (cp + 1) % div) = false := by simp [hs]
      simp [hbeq]

/-- C8 counterexample: an assigned item whose `backup` returns Python
`False` (a filter skip) is still counted as a success — the loop ignores
the return value — so the returned count is 1 while the number of items
for which `backup` returned true is 0. -/
theorem backup_count_counterexample :
    backupReposLoop 1 0 (fun _ => false)
        [("repo1", ItemOutcome.ret (some false))] 0 0 [] =
      Except.ok (1, []) ∧
    ([("repo1", ItemOutcome.ret (some false))].countP
        (fun p => isTrueRetOutcome p.2)) = 0 ∧
    (1 : Nat) ≠ 0 :=
  ⟨rfl, rfl, by decide⟩

/-- C8 (amended): when no other exception escapes and no quit message
arrives, a worker's returned success count equals the number of items
assigned to it for which `backup()` returned without raising — whatever
value it returned, so filter skips returning false are counted too — and
the queued errors are exactly one text per assigned item that raised a
`GitBackupFailedException`. -/
theorem backup_repos_success_count (div step : Nat)
    (items : List (String × ItemOutcome))
    (hno : items.all (fun p => ! isFailOtherOutcome p.2) = true) :
    backupReposLoop div step (fun _ => false) items 0 0 [] =
      Except.ok
        (items.enum.countP
            (fun q => (step == (q.1 + 1) % div) && isRetOutcome q.2.2),
          items.enum.filterMap
            (fun q => if step == (q.1 + 1) % div then bfText q.2.2 else none)) := by
  have h := backupReposLoop_no_quit div step items 0 0 [] hno
  have he : items.enum = List.enumFrom 0 items := rfl
  rw [he]
  simpa using h

/-- Witness for the amended C8 at a concrete input: one item returning
true, one raising a backup failure, one returning false. -/
theorem backup_repos_success_count_witness :
    ([("a", ItemOutcome.ret (some true)),
        ("b", ItemOutcome.failBF ⟨"boom", "fetch_branch", [("branch", "dev")]⟩),
        ("c", ItemOutcome.ret (some false))].all
      (fun p => ! isFailOtherOutcome p.2) = true) ∧
    backupReposLoop 1 0 (fun _ => false)
        [("a", ItemOutcome.ret (some true)),
          ("b", ItemOutcome.failBF ⟨"boom", "fetch_branch", [("branch", "dev")]⟩),
          ("c", ItemOutcome.ret (some false))] 0 0 [] =
      Except.ok
        ([("a", ItemOutcome.ret (some true)),
            ("b", ItemOutcome.failBF ⟨"boom", "fetch_branch", [("branch", "dev")]⟩),
            ("c", ItemOutcome.ret (some false))].enum.countP
            (fun q => (0 == (q.1 + 1) % 1) && isRetOutcome q.2.2),
          [("a", ItemOutcome.ret (some true)),
            ("b", ItemOutcome.failBF ⟨"boom", "fetch_branch", [("branch", "dev")]⟩),
            ("c", ItemOutcome.ret (some false))].enum.filterMap
            (fun q => if 0 == (q.1 + 1) % 1 then bfText q.2.2 else none)) :=
  ⟨by decide,
    backup_repos_success_count 1 0
      [("a", ItemOutcome.ret (some true)),
        ("b", ItemOutcome.failBF ⟨"boom", "fetch_branch", [("branch", "dev")]⟩),
        ("c", ItemOutcome.ret (some false))] (by decide)⟩
